import Mathlib

/-!
Shallow embedding of `src/packages/hurl/src/output/raw.rs` (the `write_last_body`
function of the hurl output module) together with the data model it consumes.

Bytes are modelled as `List Nat` (each element a byte value); the Rust
conversion `String::into_bytes` (UTF-8) is modelled by `strBytes` below,
built on the standard UTF-8 encoder `String.utf8EncodeChar`.

The collaborators of `write_last_body` that are outside the given source
(`Response::get_status_line_headers`, `Response::uncompress_body`,
`Output::write`, the `runner::Error` and `output::Error` shapes) are modelled
from the specification; each such definition carries a doc comment starting
with `Modelled from the spec:`.
-/

namespace HurlRaw

/-- A position in a hurl source file (`hurl_core::ast::Pos`): line and column. -/
structure Pos where
  line : Nat
  column : Nat
deriving DecidableEq

/-- Mirrors `Pos::new(line, column)`. -/
def Pos.new (line column : Nat) : Pos := Pos.mk line column

/-- A source span (`hurl_core::ast::SourceInfo`): start and end positions.
The Rust field `end` is a Lean keyword, rendered here as `stop`. -/
structure SourceInfo where
  start : Pos
  stop : Pos
deriving DecidableEq

/-- Mirrors `SourceInfo::new(start, end)`. -/
def SourceInfo.new (start stop : Pos) : SourceInfo := SourceInfo.mk start stop

/-- One HTTP header: a name and a value.  Names may repeat across a header
sequence; order is significant. -/
structure Header where
  name : String
  value : String
deriving DecidableEq

/-- The HTTP protocol versions of the data model (enumerated in the spec:
HTTP/1.0, 1.1, 2, 3). -/
inductive HttpVersion
  | Http10
  | Http11
  | Http2
  | Http3
deriving DecidableEq

/-- Modelled from the spec: the textual form of a protocol version, as it
appears in the status line (the concrete scenario shows `HTTP/3`). -/
def HttpVersion.toStr : HttpVersion → String
  | HttpVersion.Http10 => "HTTP/1.0"
  | HttpVersion.Http11 => "HTTP/1.1"
  | HttpVersion.Http2 => "HTTP/2"
  | HttpVersion.Http3 => "HTTP/3"

/-- Modelled from the spec: the error produced by the compression codec
collaborator when the recorded content-encoding cannot be reversed (the
`http` error converted by `e.into()` in the source).  The codec itself is out
of scope; we keep only an abstract description of the cause. -/
structure HttpError where
  message : String
deriving DecidableEq

/-- Decidable equality for `Except`, so the model evaluates on concrete
inputs. -/
instance exceptDecEq {ε α : Type} [DecidableEq ε] [DecidableEq α] :
    DecidableEq (Except ε α) := fun a b =>
  match a, b with
  | Except.ok x, Except.ok y =>
    if h : x = y then isTrue (congrArg Except.ok h)
    else isFalse (fun hc => h (Except.ok.inj hc))
  | Except.ok _, Except.error _ => isFalse (fun hc => Except.noConfusion hc)
  | Except.error _, Except.ok _ => isFalse (fun hc => Except.noConfusion hc)
  | Except.error x, Except.error y =>
    if h : x = y then isTrue (congrArg Except.error h)
    else isFalse (fun hc => h (Except.error.inj hc))

/-- An HTTP response: version, status, ordered header multi-map, raw body
bytes, and the outcome of decompressing the body.  Timing, effective URL and
certificate info are not consumed by this component and are omitted.

The field `uncompressedBody` is modelled from the spec: decompression uses the
content-encoding recorded on the response, and the codec is an out-of-scope
collaborator, so the model records the outcome `Response::uncompress_body`
would produce (success with the decoded bytes, or the codec error). -/
structure Response where
  version : HttpVersion
  status : Nat
  headers : List Header
  body : List Nat
  uncompressedBody : Except HttpError (List Nat)
deriving DecidableEq

/-- Modelled from the spec: `Response::uncompress_body` attempts to decompress
the response body using the content-encoding recorded on the response,
returning the decoded bytes or a codec error.  The codec being out of scope,
the model reads the recorded outcome. -/
def Response.uncompress_body (r : Response) : Except HttpError (List Nat) :=
  r.uncompressedBody

/-- One HTTP request (not rendered by this component; kept for data-model
fidelity). -/
structure Request where
  url : String
  method : String
  headers : List Header
  body : List Nat
deriving DecidableEq

/-- One network exchange: a request and a response. -/
structure Call where
  request : Request
  response : Response
deriving DecidableEq

/-- One executed entry (step) of a run: its index, source span, ordered calls,
and the `compressed` flag saying the final response body is still
transport-encoded.  Captures, asserts, errors and timing are not consumed by
this component and are omitted. -/
structure EntryResult where
  entry_index : Nat
  source_info : SourceInfo
  calls : List Call
  compressed : Bool
deriving DecidableEq

/-- The outcome of an entire run (`HurlResult`): the ordered entries plus
run-level metadata not consumed by this component. -/
structure HurlResult where
  entries : List EntryResult
  time_in_ms : Nat
  success : Bool
  timestamp : Int
deriving DecidableEq

/-- Modelled from the spec: the kind carried by the reportable error of the
run; the decompression path wraps the codec error (`e.into()` in the source). -/
inductive RunnerErrorKind
  | http (e : HttpError)
deriving DecidableEq

/-- Modelled from the spec: `e.into()`, the conversion of the codec error into
the runner error kind. -/
def HttpError.intoRunner (e : HttpError) : RunnerErrorKind :=
  RunnerErrorKind.http e

/-- Modelled from the spec: the standard reportable-error shape of the run
(`runner::Error`): a source span, the error kind, and a boolean tag; per the
spec the tag marks whether the failure is fatal to the process (`false` =
non-fatal-to-the-process). -/
structure RunnerError where
  source_info : SourceInfo
  kind : RunnerErrorKind
  fatal : Bool
deriving DecidableEq

/-- Mirrors `runner::Error::new(source_info, kind, fatal)`. -/
def RunnerError.new (source_info : SourceInfo) (kind : RunnerErrorKind)
    (fatal : Bool) : RunnerError :=
  RunnerError.mk source_info kind fatal

/-- Modelled from the spec: the error of the output module (`output::Error`), into
which a `runner::Error` is converted by `error.into()` in the source. -/
inductive Error
  | runner (e : RunnerError)
deriving DecidableEq

/-- Modelled from the spec: `error.into()`, the conversion of a
`runner::Error` into the error of the output module. -/
def Error.ofRunner (e : RunnerError) : Error :=
  Error.runner e

/-- The output destination sum type: the default output stream, or a named
file. -/
inductive Output
  | stdout
  | file (name : String)
deriving DecidableEq

/-- The mutable environment reachable from `write_last_body`: the run result
snapshot (held behind a shared borrow in Rust, so readable but never
writable), the bytes accumulated in the stdout handle of the caller, the named
files written, and a log of every sink write invocation (target and bytes),
used to state how many write calls happen and where they are routed. -/
structure World where
  hurl_result : HurlResult
  stdoutBuf : List Nat
  files : List (String × List Nat)
  writes : List (Output × List Nat)
deriving DecidableEq

/-- Modelled from the spec: the sink collaborator `Output::write(bytes,
stdout, mode)`: a named-file destination appends a write to that file, the
default-stream destination appends the bytes to the stdout handle of the caller.
Every invocation is recorded in the write log.  (The `mode` argument is always
`None` at this call site and is omitted.) -/
def Output.write (o : Output) (bytes : List Nat) (w : World) : World :=
  match o with
  | Output.stdout =>
    { w with
      stdoutBuf := w.stdoutBuf ++ bytes
      writes := w.writes ++ [(Output.stdout, bytes)] }
  | Output.file name =>
    { w with
      files := w.files ++ [(name, bytes)]
      writes := w.writes ++ [(Output.file name, bytes)] }

/-- UTF-8 bytes of a string, as the Rust conversion `String::into_bytes` produces them:
each character encoded by the standard encoder `String.utf8EncodeChar` (the
function underlying `String.toUTF8`). -/
def strBytes (s : String) : List Nat :=
  s.data.flatMap (fun c => (String.utf8EncodeChar c).map (fun b => b.toNat))

/-- Modelled from the spec: `Response::get_status_line_headers(color)`
produces a status line `"<PROTOCOL-VERSION> <STATUS-CODE>"`, followed by one
line per header entry in original insertion order as `"<name>: <value>"`,
followed by a single trailing newline.  Terminal styling is applied only when
`color` is true; the styling collaborator being out of scope, styling is
modelled as wrapping the status line in terminal escape sequences. -/
def Response.get_status_line_headers (r : Response) (color : Bool) : String :=
  let status_line := HttpVersion.toStr r.version ++ " " ++ toString r.status
  let status_line :=
    if color then "\x1b[1m" ++ status_line ++ "\x1b[0m" else status_line
  status_line ++ "\n" ++
    String.join (r.headers.map (fun h => h.name ++ ": " ++ h.value ++ "\n"))

/-- The final routing step of the source: `match filename_out { Some(out) =>
out.write(&output, stdout, None), None => Output::Stdout.write(&output,
stdout, None) }`. -/
def sinkWrite (filename_out : Option Output) (bytes : List Nat) (w : World) :
    World :=
  match filename_out with
  | some out => Output.write out bytes w
  | none => Output.write Output.stdout bytes w

/-- Embedding of `write_last_body` from `src/packages/hurl/src/output/raw.rs`:
writes the last response of the run result (headers first when `include_headers`)
to `filename_out`, or to standard output when `filename_out` is `None`.  The
run result and the sink live in the `World`; the pair returned is the Rust
`Result` together with the post-state. -/
def write_last_body (include_headers : Bool) (color : Bool)
    (filename_out : Option Output) (w : World) : Except Error Unit × World :=
  match w.hurl_result.entries.getLast? with
  | none => (Except.ok (), w)
  | some last_entry =>
    match last_entry.calls.getLast? with
    | none => (Except.ok (), w)
    | some call =>
      let response := call.response
      let headerPart : List Nat :=
        if include_headers then
          strBytes (Response.get_status_line_headers response color ++ "\n")
        else []
      if last_entry.compressed then
        match Response.uncompress_body response with
        | Except.ok bytes =>
          (Except.ok (), sinkWrite filename_out (headerPart ++ bytes) w)
        | Except.error e =>
          let source_info := SourceInfo.new (Pos.new 0 0) (Pos.new 0 0)
          let error := RunnerError.new source_info (HttpError.intoRunner e) false
          (Except.error (Error.ofRunner error), w)
      else
        (Except.ok (), sinkWrite filename_out (headerPart ++ response.body) w)

/-! ### Concrete fixtures

The run result built by the unit test `write_last_body_with_headers` in the
source file (three entries aimed at foo.com, bar.com and baz.com; only the
last entry carries a non-default response), plus smaller fixtures for the
empty, decompression-failure and decompression-success situations. -/

/-- A GET request to the given URL with no headers and no body, as built by
the unit test fixture of the source. -/
def testRequest (url : String) : Request :=
  Request.mk url "GET" [] []

/-- A stand-in for `Response::default()` as used for the first two entries of
the unit test fixture of the source; never consumed by `write_last_body`
because only the last entry matters. -/
def defaultResponse : Response :=
  Response.mk HttpVersion.Http10 200 [] [] (Except.ok [])

/-- The response of the third entry of the unit test fixture of the source:
HTTP/3, status 204, five headers with a repeated name, a small JSON body. -/
def testResponse : Response :=
  Response.mk HttpVersion.Http3 204
    [Header.mk "x-foo" "xxx", Header.mk "x-bar" "yyy0", Header.mk "x-bar" "yyy1",
     Header.mk "x-bar" "yyy2", Header.mk "x-baz" "zzz"]
    (strBytes "\x7b\"say\": \"Hello World!\"\x7d")
    (Except.ok [])

/-- The last call of the unit test fixture of the source. -/
def testCall : Call :=
  Call.mk (testRequest "https://baz.com") testResponse

/-- The three entries of the unit test fixture of the source. -/
def testEntry1 : EntryResult :=
  EntryResult.mk 1 (SourceInfo.new (Pos.new 0 0) (Pos.new 0 0))
    [Call.mk (testRequest "https://foo.com") defaultResponse] false

/-- Second entry of the unit test fixture of the source. -/
def testEntry2 : EntryResult :=
  EntryResult.mk 2 (SourceInfo.new (Pos.new 0 0) (Pos.new 0 0))
    [Call.mk (testRequest "https://bar.com") defaultResponse] false

/-- Third entry of the unit test fixture of the source (the one rendered). -/
def testEntry3 : EntryResult :=
  EntryResult.mk 3 (SourceInfo.new (Pos.new 0 0) (Pos.new 0 0))
    [testCall] false

/-- The whole run result of the unit test fixture of the source. -/
def testHurlResult : HurlResult :=
  HurlResult.mk [testEntry1, testEntry2, testEntry3] 100 true 0

/-- A pristine world holding the unit test fixture of the source. -/
def testWorld : World :=
  World.mk testHurlResult [] [] []

/-- The same run result in a world whose sink already saw traffic; used to
show the behaviour does not depend on prior sink state. -/
def testWorldB : World :=
  World.mk testHurlResult (strBytes "prior") [("old.txt", [1, 2])]
    [(Output.file "old.txt", [1, 2]), (Output.stdout, strBytes "prior")]

/-- A world whose run result has no entries at all. -/
def emptyWorld : World :=
  World.mk (HurlResult.mk [] 0 false 0) [] [] []

/-- The codec error used by the decompression-failure fixture. -/
def gzipError : HttpError :=
  HttpError.mk "could not uncompress response with gzip"

/-- A call whose response body cannot be decompressed. -/
def badCall : Call :=
  Call.mk (testRequest "https://foo.com")
    (Response.mk HttpVersion.Http11 200 [Header.mk "content-encoding" "gzip"]
      [31, 139, 8] (Except.error gzipError))

/-- An entry marked `compressed` whose last call has an undecodable body. -/
def badEntry : EntryResult :=
  EntryResult.mk 1 (SourceInfo.new (Pos.new 0 0) (Pos.new 0 0)) [badCall] true

/-- A world whose last entry is `compressed` and fails to decompress. -/
def badWorld : World :=
  World.mk (HurlResult.mk [badEntry] 10 false 0) [] [] []

/-- A call whose response decompresses successfully to the bytes of
`"hello"`. -/
def okCall : Call :=
  Call.mk (testRequest "https://foo.com")
    (Response.mk HttpVersion.Http2 200 [Header.mk "content-encoding" "gzip"]
      [31, 139, 8, 0] (Except.ok (strBytes "hello")))

/-- An entry marked `compressed` whose last call decompresses successfully. -/
def okEntry : EntryResult :=
  EntryResult.mk 1 (SourceInfo.new (Pos.new 0 0) (Pos.new 0 0)) [okCall] true

/-- A world whose last entry is `compressed` and decompresses successfully. -/
def okWorld : World :=
  World.mk (HurlResult.mk [okEntry] 10 true 0) [] [] []

/-! ### Helper lemmas -/

/-- UTF-8 encoding distributes over string concatenation. -/
theorem strBytes_append (a b : String) :
    strBytes (a ++ b) = strBytes a ++ strBytes b := by
  simp [strBytes]

/-- UTF-8 encoding of a fold of concatenations. -/
theorem strBytes_foldl (l : List String) (s : String) :
    strBytes (l.foldl (fun r t => r ++ t) s) = strBytes s ++ l.flatMap strBytes := by
  induction l generalizing s with
  | nil => simp
  | cons a l ih => simp [List.foldl_cons, ih, strBytes_append]

/-- UTF-8 encoding of a joined list of strings is the concatenation of the
encodings. -/
theorem strBytes_join (l : List String) :
    strBytes (String.join l) = l.flatMap strBytes := by
  rw [String.join, strBytes_foldl]
  rfl

/-- The write log after routing: one entry appended, aimed at the supplied
destination or at the default stream. -/
theorem sinkWrite_writes (fo : Option Output) (b : List Nat) (w : World) :
    (sinkWrite fo b w).writes = w.writes ++ [(fo.getD Output.stdout, b)] := by
  cases fo with
  | none => simp [sinkWrite, Output.write]
  | some out => cases out <;> simp [sinkWrite, Output.write]

/-- Routing bytes to the sink never touches the run result snapshot. -/
theorem sinkWrite_keeps_result (fo : Option Output) (b : List Nat) (w : World) :
    (sinkWrite fo b w).hurl_result = w.hurl_result := by
  cases fo with
  | none => simp [sinkWrite, Output.write]
  | some out => cases out <;> simp [sinkWrite, Output.write]

/-- The bytes of the uncolored header block: the status line with its newline,
then one line with its newline per header in order. -/
theorem get_status_line_headers_bytes (r : Response) :
    strBytes (Response.get_status_line_headers r false) =
      strBytes (HttpVersion.toStr r.version ++ " " ++ toString r.status ++ "\n") ++
      r.headers.flatMap (fun h => strBytes (h.name ++ ": " ++ h.value ++ "\n")) := by
  simp [Response.get_status_line_headers, strBytes_append, strBytes_join,
    List.flatMap_map, Function.comp]

/-- Sanity: on the run result of the unit test of the source
(`write_last_body_with_headers`), the embedding reproduces the expected
transcript byte for byte. -/
theorem write_last_body_matches_source_test :
    (write_last_body true false (some Output.stdout) testWorld).2.stdoutBuf =
      strBytes
        "HTTP/3 204\nx-foo: xxx\nx-bar: yyy0\nx-bar: yyy1\nx-bar: yyy2\nx-baz: zzz\n\n\x7b\"say\": \"Hello World!\"\x7d" := by
  decide

/-! ### Claims -/

/-- C2: for a run result with an empty entries sequence, or whose last entry
has an empty calls sequence, `write_last_body` returns success and writes
zero bytes (the world is unchanged), for all values of `include_headers`,
`color` and destination. -/
theorem write_last_body_empty_noop (include_headers color : Bool)
    (fo : Option Output) (w : World)
    (h : w.hurl_result.entries = [] ∨
      ∃ e, w.hurl_result.entries.getLast? = some e ∧ e.calls = []) :
    write_last_body include_headers color fo w = (Except.ok (), w) := by
  rcases h with h | ⟨e, h1, h2⟩
  · simp [write_last_body, h]
  · simp [write_last_body, h1, h2]

/-- C2 witness: a run with no entries is a silent no-op. -/
theorem write_last_body_empty_noop_witness :
    write_last_body true true (some (Output.file "result.bin")) emptyWorld =
      (Except.ok (), emptyWorld) :=
  write_last_body_empty_noop true true (some (Output.file "result.bin"))
    emptyWorld (Or.inl rfl)

/-- C3: when the last entry is `compressed` and its last call body cannot be
decompressed, `write_last_body` returns an error and the world is unchanged:
no bytes at all reach the destination. -/
theorem write_last_body_decompress_failure_no_write
    (include_headers color : Bool) (fo : Option Output) (w : World)
    (e : EntryResult) (call : Call) (err : HttpError)
    (h1 : w.hurl_result.entries.getLast? = some e)
    (h2 : e.calls.getLast? = some call)
    (h3 : e.compressed = true)
    (h4 : Response.uncompress_body call.response = Except.error err) :
    (∃ er, (write_last_body include_headers color fo w).1 = Except.error er) ∧
    (write_last_body include_headers color fo w).2 = w := by
  constructor
  · exact ⟨Error.ofRunner (RunnerError.new (SourceInfo.new (Pos.new 0 0) (Pos.new 0 0))
      (HttpError.intoRunner err) false), by simp [write_last_body, h1, h2, h3, h4]⟩
  · simp [write_last_body, h1, h2, h3, h4]

/-- C3 witness: the gzip-failure fixture errors out with an untouched world. -/
theorem write_last_body_decompress_failure_no_write_witness :
    (∃ er, (write_last_body false false none badWorld).1 = Except.error er) ∧
    (write_last_body false false none badWorld).2 = badWorld :=
  write_last_body_decompress_failure_no_write false false none badWorld
    badEntry badCall gzipError rfl rfl rfl rfl

/-- C4: when the last entry has `compressed = false`, the raw body bytes are
used unchanged, so the single emitted byte sequence ends with exactly the
stored raw body bytes, for both values of `include_headers`. -/
theorem write_last_body_raw_body_tail (include_headers color : Bool)
    (fo : Option Output) (w : World) (e : EntryResult) (call : Call)
    (h1 : w.hurl_result.entries.getLast? = some e)
    (h2 : e.calls.getLast? = some call)
    (h3 : e.compressed = false) :
    (write_last_body include_headers color fo w).1 = Except.ok () ∧
    ∃ hd, (write_last_body include_headers color fo w).2.writes =
      w.writes ++ [(fo.getD Output.stdout, hd ++ call.response.body)] := by
  constructor
  · simp [write_last_body, h1, h2, h3]
  · exact ⟨(if include_headers then
      strBytes (Response.get_status_line_headers call.response color ++ "\n") else []),
      by simp [write_last_body, h1, h2, h3, sinkWrite_writes]⟩

/-- C4 witness: the uncompressed fixture emits bytes ending in its raw body. -/
theorem write_last_body_raw_body_tail_witness :
    (write_last_body true false (some (Output.file "out.json")) testWorld).1 =
      Except.ok () ∧
    ∃ hd, (write_last_body true false (some (Output.file "out.json"))
        testWorld).2.writes =
      [(Output.file "out.json", hd ++ testCall.response.body)] :=
  write_last_body_raw_body_tail true false (some (Output.file "out.json"))
    testWorld testEntry3 testCall rfl rfl rfl

/-- C5: with `include_headers = false` and a successful rendering, the emitted
bytes are exactly the body of the last call (decompressed when the entry is
`compressed`, raw otherwise), with no leading header text. -/
theorem write_last_body_body_only (color : Bool) (fo : Option Output)
    (w : World) (e : EntryResult) (call : Call) (b : List Nat)
    (h1 : w.hurl_result.entries.getLast? = some e)
    (h2 : e.calls.getLast? = some call)
    (h3 : (e.compressed = true ∧ Response.uncompress_body call.response = Except.ok b) ∨
          (e.compressed = false ∧ b = call.response.body)) :
    (write_last_body false color fo w).1 = Except.ok () ∧
    (write_last_body false color fo w).2.writes =
      w.writes ++ [(fo.getD Output.stdout, b)] := by
  rcases h3 with ⟨hc, hu⟩ | ⟨hc, hb⟩
  · constructor <;> simp [write_last_body, h1, h2, hc, hu, sinkWrite_writes]
  · constructor <;> simp [write_last_body, h1, h2, hc, hb, sinkWrite_writes]

/-- C5 witness: the compressed-success fixture emits exactly the decompressed
bytes. -/
theorem write_last_body_body_only_witness :
    (write_last_body false true none okWorld).1 = Except.ok () ∧
    (write_last_body false true none okWorld).2.writes =
      [(Output.stdout, strBytes "hello")] :=
  write_last_body_body_only true none okWorld okEntry okCall
    (strBytes "hello") rfl rfl (Or.inl ⟨rfl, rfl⟩)

/-- C6: on decompression failure the returned error is the codec cause wrapped
into the reportable runner-error shape with the zero placeholder span (line 0,
column 0 at both ends) and the process-fatality tag set to `false`, converted
into the output error. -/
theorem write_last_body_error_shape (include_headers color : Bool)
    (fo : Option Output) (w : World) (e : EntryResult) (call : Call)
    (cause : HttpError)
    (h1 : w.hurl_result.entries.getLast? = some e)
    (h2 : e.calls.getLast? = some call)
    (h3 : e.compressed = true)
    (h4 : Response.uncompress_body call.response = Except.error cause) :
    (write_last_body include_headers color fo w).1 =
      Except.error (Error.runner (RunnerError.mk
        (SourceInfo.mk (Pos.mk 0 0) (Pos.mk 0 0))
        (RunnerErrorKind.http cause) false)) := by
  simp [write_last_body, h1, h2, h3, h4, Error.ofRunner, RunnerError.new,
    SourceInfo.new, Pos.new, HttpError.intoRunner]

/-- C6 witness: the gzip-failure fixture produces exactly the wrapped error. -/
theorem write_last_body_error_shape_witness :
    (write_last_body true false none badWorld).1 =
      Except.error (Error.runner (RunnerError.mk
        (SourceInfo.mk (Pos.mk 0 0) (Pos.mk 0 0))
        (RunnerErrorKind.http gzipError) false)) :=
  write_last_body_error_shape true false none badWorld badEntry badCall
    gzipError rfl rfl rfl rfl

/-- C7: whenever a last call exists and the invocation succeeds, exactly one
sink write happens, aimed at the supplied destination when present and at the
default stream otherwise. -/
theorem write_last_body_single_write (include_headers color : Bool)
    (fo : Option Output) (w : World) (e : EntryResult) (call : Call)
    (h1 : w.hurl_result.entries.getLast? = some e)
    (h2 : e.calls.getLast? = some call)
    (hok : (write_last_body include_headers color fo w).1 = Except.ok ()) :
    ∃ bts, (write_last_body include_headers color fo w).2.writes =
      w.writes ++ [(fo.getD Output.stdout, bts)] := by
  cases hcp : e.compressed with
  | false =>
    exact ⟨(if include_headers then
      strBytes (Response.get_status_line_headers call.response color ++ "\n") else []) ++
      call.response.body,
      by simp [write_last_body, h1, h2, hcp, sinkWrite_writes]⟩
  | true =>
    cases hu : Response.uncompress_body call.response with
    | ok bytes =>
      exact ⟨(if include_headers then
        strBytes (Response.get_status_line_headers call.response color ++ "\n") else []) ++
        bytes,
        by simp [write_last_body, h1, h2, hcp, hu, sinkWrite_writes]⟩
    | error err =>
      exfalso
      simp [write_last_body, h1, h2, hcp, hu] at hok

/-- C7 witness: the unit test fixture produces exactly one write, to the
default stream when no destination is supplied. -/
theorem write_last_body_single_write_witness :
    ∃ bts, (write_last_body true false none testWorld).2.writes =
      [(Output.stdout, bts)] :=
  write_last_body_single_write true false none testWorld testEntry3 testCall
    rfl rfl rfl

/-- C8: the run result snapshot is never mutated, and no state is retained
across invocations: the outcome and the appended write events depend only on
the run result and the arguments, not on prior sink contents. -/
theorem write_last_body_frame (include_headers color : Bool)
    (fo : Option Output) (w w2 : World)
    (hw : w.hurl_result = w2.hurl_result) :
    (write_last_body include_headers color fo w).2.hurl_result = w.hurl_result ∧
    (write_last_body include_headers color fo w).1 =
      (write_last_body include_headers color fo w2).1 ∧
    (write_last_body include_headers color fo w).2.writes.drop w.writes.length =
      (write_last_body include_headers color fo w2).2.writes.drop w2.writes.length := by
  cases h1 : w.hurl_result.entries.getLast? with
  | none =>
    have h1b : w2.hurl_result.entries.getLast? = none := by rw [← hw]; exact h1
    simp [write_last_body, h1, h1b]
  | some e =>
    have h1b : w2.hurl_result.entries.getLast? = some e := by rw [← hw]; exact h1
    cases h2 : e.calls.getLast? with
    | none => simp [write_last_body, h1, h1b, h2]
    | some call =>
      cases hcp : e.compressed with
      | false =>
        simp [write_last_body, h1, h1b, h2, hcp, sinkWrite_writes,
          sinkWrite_keeps_result, List.drop_left]
      | true =>
        cases hu : Response.uncompress_body call.response with
        | ok bytes =>
          simp [write_last_body, h1, h1b, h2, hcp, hu, sinkWrite_writes,
            sinkWrite_keeps_result, List.drop_left]
        | error err =>
          simp [write_last_body, h1, h1b, h2, hcp, hu]

/-- C8 witness: the unit test fixture behaves identically from a pristine
world and from a world with prior sink traffic, leaving the run result
untouched. -/
theorem write_last_body_frame_witness :
    (write_last_body true false none testWorld).2.hurl_result = testHurlResult ∧
    (write_last_body true false none testWorld).1 =
      (write_last_body true false none testWorldB).1 ∧
    (write_last_body true false none testWorld).2.writes.drop 0 =
      (write_last_body true false none testWorldB).2.writes.drop 2 :=
  write_last_body_frame true false none testWorld testWorldB rfl

/-- C9: passing the default stream explicitly as the destination is the same
as passing no destination at all, for every run result, flag combination and
world. -/
theorem write_last_body_stdout_dest_equiv (include_headers color : Bool)
    (w : World) :
    write_last_body include_headers color (some Output.stdout) w =
      write_last_body include_headers color none w := by
  cases h1 : w.hurl_result.entries.getLast? with
  | none => simp [write_last_body, h1]
  | some e =>
    cases h2 : e.calls.getLast? with
    | none => simp [write_last_body, h1, h2]
    | some call =>
      cases hcp : e.compressed <;>
        simp [write_last_body, h1, h2, hcp, sinkWrite]

/-- C10: when `include_headers = false` the `color` flag has no effect at all:
result and written bytes coincide for `color = true` and `color = false`. -/
theorem write_last_body_color_irrelevant_without_headers
    (fo : Option Output) (w : World) :
    write_last_body false true fo w = write_last_body false false fo w := by
  cases h1 : w.hurl_result.entries.getLast? with
  | none => simp [write_last_body, h1]
  | some e =>
    cases h2 : e.calls.getLast? with
    | none => simp [write_last_body, h1, h2]
    | some call =>
      cases hcp : e.compressed <;>
        simp [write_last_body, h1, h2, hcp]

/-- C1 counterexample: with `include_headers = true` and `color = true` the
rendering succeeds but the emitted bytes do not begin with the plain status
line `"HTTP/3 204\n"`, because the header block carries the terminal styling
requested by `color`; the claim as stated, which leaves `color`
unconstrained, therefore fails. -/
theorem write_last_body_headers_layout_cex :
    (write_last_body true true none testWorld).1 = Except.ok () ∧
    List.take (strBytes "HTTP/3 204\n").length
        (write_last_body true true none testWorld).2.stdoutBuf ≠
      strBytes "HTTP/3 204\n" := by
  decide

/-- C1 (amended with `color = false`): with `include_headers = true`,
`color = false` and a successful rendering, the emitted bytes are exactly the
status line `"<VERSION> <STATUS>\n"`, then one `"<name>: <value>\n"` line per
header in original insertion order (repeated names once per occurrence),
then a blank line, then the body bytes, with no other separator, all in a
single write. -/
theorem write_last_body_headers_layout (fo : Option Output) (w : World)
    (e : EntryResult) (call : Call) (b : List Nat)
    (h1 : w.hurl_result.entries.getLast? = some e)
    (h2 : e.calls.getLast? = some call)
    (h3 : (e.compressed = true ∧ Response.uncompress_body call.response = Except.ok b) ∨
          (e.compressed = false ∧ b = call.response.body)) :
    (write_last_body true false fo w).1 = Except.ok () ∧
    (write_last_body true false fo w).2.writes =
      w.writes ++ [(fo.getD Output.stdout,
        strBytes (HttpVersion.toStr call.response.version ++ " " ++
          toString call.response.status ++ "\n") ++
        (call.response.headers.flatMap
          (fun h => strBytes (h.name ++ ": " ++ h.value ++ "\n")) ++
        (strBytes "\n" ++ b)))] := by
  rcases h3 with ⟨hc, hu⟩ | ⟨hc, hb⟩
  · constructor <;>
      simp [write_last_body, h1, h2, hc, hu, sinkWrite_writes,
        get_status_line_headers_bytes, strBytes_append]
  · constructor <;>
      simp [write_last_body, h1, h2, hc, hb, sinkWrite_writes,
        get_status_line_headers_bytes, strBytes_append]

/-- C1 witness: the unit test fixture rendered with headers and no color
emits the status line, the five header lines in order with the repeated
`x-bar` kept three times, a blank line, and the body. -/
theorem write_last_body_headers_layout_witness :
    (write_last_body true false none testWorld).1 = Except.ok () ∧
    (write_last_body true false none testWorld).2.writes =
      [(Output.stdout,
        strBytes (HttpVersion.toStr testCall.response.version ++ " " ++
          toString testCall.response.status ++ "\n") ++
        (testCall.response.headers.flatMap
          (fun h => strBytes (h.name ++ ": " ++ h.value ++ "\n")) ++
        (strBytes "\n" ++ testCall.response.body)))] :=
  write_last_body_headers_layout none testWorld testEntry3 testCall
    testCall.response.body rfl rfl (Or.inr ⟨rfl, rfl⟩)

end HurlRaw
